import Mathlib

/-
  Verification development for the orders microservice
  (src/src/orders/orders.service.ts).

  The service methods `create`, `findAll`, `findOne`, `changeOrderStatus`
  and `paidOrder` are shallowly embedded as pure Lean functions over an
  explicit store (a list of Order rows).  The NATS catalog call
  `client.send('validate_product', ids)` is modelled as a function
  parameter `Catalog : List Nat -> Except String (List Product)`; the
  ids actually sent over the channel are recorded in a `catalogCalls`
  log so that statements about what is (or is not) sent can be made.
  JavaScript exceptions are modelled explicitly: `Except RpcError` for
  methods whose failures are all structured `RpcException`s, and
  `SvcResult` (ok / rpcError / crash) where an unhandled error
  (a TypeError from dereferencing `undefined`, or a rejected downstream
  call outside any try/catch) can escape.
-/

namespace OrdersService

/-- HttpStatus.BAD_REQUEST from @nestjs/common. -/
def BAD_REQUEST : Nat := 400

/-- HttpStatus.NOT_FOUND from @nestjs/common. -/
def NOT_FOUND : Nat := 404

/-- A product record as returned by the catalog reply to validate_product. -/
structure Product where
  id : Nat
  name : String
  price : Int
deriving DecidableEq

/-- One entry of CreateOrderDto.items (dto/order-item.dto.ts: productId,
quantity, price; the input price is ignored by `create`, which uses the
catalog price). -/
structure OrderItemDto where
  productId : Nat
  quantity : Nat
  price : Int
deriving DecidableEq

/-- CreateOrderDto: the list of requested items. -/
structure CreateOrderDto where
  items : List OrderItemDto
deriving DecidableEq

/-- The Prisma OrderStatus enum (PENDING initial; PAID set by paidOrder). -/
inductive OrderStatus where
  | PENDING
  | PAID
  | CANCELLED
  | DELIVERED
deriving DecidableEq

/-- String form of a status, as interpolated into error messages. -/
def OrderStatus.toName : OrderStatus → String
  | .PENDING => "PENDING"
  | .PAID => "PAID"
  | .CANCELLED => "CANCELLED"
  | .DELIVERED => "DELIVERED"

/-- A persisted OrderItem row (the fields selected by the service:
price, productId, quantity).  No name is ever persisted. -/
structure OrderItemRow where
  price : Int
  productId : Nat
  quantity : Nat
deriving DecidableEq

/-- A persisted OrderReceipt row. -/
structure OrderReceipt where
  receiptUrl : String
deriving DecidableEq

/-- A persisted Order row with its owned OrderItem and OrderReceipt rows.
Receipts are kept as a list so that each nested `create` of the relation
adds exactly one row. -/
structure Order where
  id : String
  totalAmount : Int
  totalItems : Nat
  status : OrderStatus
  paid : Bool
  paidAt : Option Nat
  stripeChargeId : Option String
  OrderItems : List OrderItemRow
  receipts : List OrderReceipt
deriving DecidableEq

/-- The order store: the durable Order table. -/
abbrev Store := List Order

/-- Prisma findUnique on the Order table by id. -/
def findUnique (s : Store) (id : String) : Option Order :=
  s.find? (fun o => o.id == id)

/-- The payload of an RpcException thrown by the service. -/
structure RpcError where
  statusCode : Nat
  message : String
deriving DecidableEq

/-- Outcome of a method that can also fail with an unhandled error:
ok, a structured RpcException, or an uncaught crash. -/
inductive SvcResult (α : Type) where
  | ok : α → SvcResult α
  | rpcError : RpcError → SvcResult α
  | crash : String → SvcResult α

/-- The catalog gateway: the reply to sending 'validate_product' with the
given list of product ids (Except.error models a failed/timed-out call). -/
abbrev Catalog := List Nat → Except String (List Product)

/-- Message of the Error thrown inside create's totalAmount reduce. -/
def productNotFoundMsg (pid : Nat) : String :=
  "Product with id " ++ toString pid ++ " not found"

/-- Message of the NOT_FOUND RpcException of findOne / changeOrderStatus. -/
def orderNotFoundMsg (id : String) : String :=
  "Order with id " ++ id ++ " not found"

/-- Message of the BAD_REQUEST RpcException of changeOrderStatus. -/
def alreadyHasStatusMsg (id : String) (st : OrderStatus) : String :=
  "Order with id " ++ id ++ " already has status " ++ st.toName

/-- Message of the TypeError raised by reading a field of the undefined
result of an unguarded products.find(...) lookup. -/
def undefinedReadMsg (field : String) : String :=
  "Cannot read properties of undefined (reading " ++ field ++ ")"

/-- products.find((p) => p.id === pid). -/
def findProduct (products : List Product) (pid : Nat) : Option Product :=
  products.find? (fun p => p.id == pid)

/-- The ids mapped from the dto items and sent to validate_product:
createOrderDto.items.map((product) => product.productId).  Note: no
deduplication is performed. -/
def createProductIds (dto : CreateOrderDto) : List Nat :=
  dto.items.map (fun item => item.productId)

/-- create's totalAmount reduce: accumulates price * quantity, throwing
(Except.error) at the first item whose productId has no match in the
catalog reply. -/
def totalAmountReduce (products : List Product) : Int → List OrderItemDto → Except String Int
  | acc, [] => Except.ok acc
  | acc, item :: rest =>
    match findProduct products item.productId with
    | none => Except.error (productNotFoundMsg item.productId)
    | some p => totalAmountReduce products (acc + p.price * (item.quantity : Int)) rest

/-- create's totalItems reduce: items.reduce((acc, item) => acc + item.quantity, 0). -/
def totalItemsReduce (items : List OrderItemDto) : Nat :=
  items.foldl (fun acc item => acc + item.quantity) 0

/-- The OrderItems rows built inside order.create's createMany data:
price comes from products.find(...).price, an unguarded lookup that
crashes (none) when the productId has no match. -/
def itemRows (products : List Product) : List OrderItemDto → Option (List OrderItemRow)
  | [] => some []
  | item :: rest =>
    match findProduct products item.productId with
    | none => none
    | some p =>
      match itemRows products rest with
      | none => none
      | some rows =>
        some ({ price := p.price, productId := item.productId, quantity := item.quantity } :: rows)

/-- A response item: a stored row re-attached with the catalog name. -/
structure NamedOrderItem where
  price : Int
  productId : Nat
  quantity : Nat
  name : String
deriving DecidableEq

/-- The display-time enrichment OrderItems.map((item) => ({...item,
name: products.find((p) => p.id === item.productId).name})): an
unguarded lookup that crashes (none) when a productId has no match. -/
def enrichItems (products : List Product) : List OrderItemRow → Option (List NamedOrderItem)
  | [] => some []
  | row :: rest =>
    match findProduct products row.productId with
    | none => none
    | some p =>
      match enrichItems products rest with
      | none => none
      | some named =>
        some ({ price := row.price, productId := row.productId, quantity := row.quantity,
                name := p.name } :: named)

/-- The enriched order returned by create and findOne: the order row
spread together with the name-enriched OrderItems list. -/
structure OrderResponse where
  order : Order
  OrderItems : List NamedOrderItem
deriving DecidableEq

/-- The new Order row written by order.create.  status, paid, paidAt,
stripeChargeId and the empty receipt relation follow the entity model of
the spec (PENDING initial, paid false, nullable paidAt/charge id); the
Prisma schema itself is not part of the sources. -/
def newOrder (newId : String) (totalAmount : Int) (totalItems : Nat)
    (rows : List OrderItemRow) : Order :=
  { id := newId, totalAmount := totalAmount, totalItems := totalItems,
    status := OrderStatus.PENDING, paid := false, paidAt := none,
    stripeChargeId := none, OrderItems := rows, receipts := [] }

/-- Result of create: the store after the call, the response or the
RpcException, and the log of ids sent to validate_product. -/
structure CreateResult where
  store : Store
  result : Except RpcError OrderResponse
  catalogCalls : List (List Nat)

/-- OrdersService.create.  The whole body is inside try/catch, so every
thrown error (the reduce's Error, a failed catalog call, or a TypeError
from an unguarded lookup) resurfaces as a BAD_REQUEST RpcException
carrying the original message.  The order row is written only when the
totalAmount reduce and the createMany data construction both succeed;
the name enrichment runs after the write. -/
def create (catalog : Catalog) (newId : String) (s : Store) (dto : CreateOrderDto) : CreateResult :=
  match catalog (createProductIds dto) with
  | Except.error msg =>
    { store := s,
      result := Except.error { statusCode := BAD_REQUEST, message := msg },
      catalogCalls := [createProductIds dto] }
  | Except.ok products =>
    match totalAmountReduce products 0 dto.items with
    | Except.error msg =>
      { store := s,
        result := Except.error { statusCode := BAD_REQUEST, message := msg },
        catalogCalls := [createProductIds dto] }
    | Except.ok totalAmount =>
      match itemRows products dto.items with
      | none =>
        { store := s,
          result := Except.error { statusCode := BAD_REQUEST,
                                   message := undefinedReadMsg "price" },
          catalogCalls := [createProductIds dto] }
      | some rows =>
        match enrichItems products rows with
        | none =>
          { store := s ++ [newOrder newId totalAmount (totalItemsReduce dto.items) rows],
            result := Except.error { statusCode := BAD_REQUEST,
                                     message := undefinedReadMsg "name" },
            catalogCalls := [createProductIds dto] }
        | some named =>
          { store := s ++ [newOrder newId totalAmount (totalItemsReduce dto.items) rows],
            result := Except.ok { order := newOrder newId totalAmount
                                    (totalItemsReduce dto.items) rows,
                                  OrderItems := named },
            catalogCalls := [createProductIds dto] }

/-- OrderPaginationDto: optional status filter, page and limit. -/
structure OrderPaginationDto where
  status : Option OrderStatus
  page : Nat
  limit : Nat
deriving DecidableEq

/-- Pagination metadata returned by findAll. -/
structure PaginationMeta where
  total : Nat
  page : Nat
  lastPage : Nat
deriving DecidableEq

/-- Result of findAll: a page of orders plus metadata. -/
structure FindAllResult where
  data : List Order
  meta : PaginationMeta
deriving DecidableEq

/-- The Prisma where clause { status: orderPaginationDto.status }:
an absent filter matches every row, a present one matches by equality. -/
def statusWhere (filter : Option OrderStatus) (o : Order) : Bool :=
  match filter with
  | none => true
  | some st => o.status == st

/-- The rows matching the status filter (shared by count and findMany). -/
def matchingOrders (s : Store) (filter : Option OrderStatus) : List Order :=
  s.filter (statusWhere filter)

/-- OrdersService.findAll: count, then findMany with
skip = (page - 1) * limit and take = limit, plus meta with
lastPage = Math.ceil(total / limit) (Nat ceiling division). -/
def findAll (s : Store) (dto : OrderPaginationDto) : FindAllResult :=
  { data := ((matchingOrders s dto.status).drop ((dto.page - 1) * dto.limit)).take dto.limit,
    meta := { total := (matchingOrders s dto.status).length,
              page := dto.page,
              lastPage := ((matchingOrders s dto.status).length + dto.limit - 1) / dto.limit } }

/-- Result of findOne: the outcome and the log of ids sent to
validate_product. -/
structure FindOneResult where
  result : SvcResult OrderResponse
  catalogCalls : List (List Nat)

/-- OrdersService.findOne.  The not-found check precedes the catalog
call; there is no try/catch, so a failed catalog call or the TypeError
of the unguarded name lookup escapes as an unhandled crash. -/
def findOne (catalog : Catalog) (s : Store) (id : String) : FindOneResult :=
  match findUnique s id with
  | none =>
    { result := SvcResult.rpcError { statusCode := NOT_FOUND, message := orderNotFoundMsg id },
      catalogCalls := [] }
  | some order =>
    match catalog (order.OrderItems.map (fun item => item.productId)) with
    | Except.error msg =>
      { result := SvcResult.crash msg,
        catalogCalls := [order.OrderItems.map (fun item => item.productId)] }
    | Except.ok products =>
      match enrichItems products order.OrderItems with
      | none =>
        { result := SvcResult.crash (undefinedReadMsg "name"),
          catalogCalls := [order.OrderItems.map (fun item => item.productId)] }
      | some named =>
        { result := SvcResult.ok { order := order, OrderItems := named },
          catalogCalls := [order.OrderItems.map (fun item => item.productId)] }

/-- ChangeOrderStatusDto: the target order id and the requested status. -/
structure ChangeOrderStatusDto where
  id : String
  status : OrderStatus
deriving DecidableEq

/-- order.update({ where: { id }, data: { status } }): the row with the
given unique id gets the new status, every other row is untouched. -/
def updateStatus (s : Store) (id : String) (st : OrderStatus) : Store :=
  s.map (fun o => if o.id = id then { o with status := st } else o)

/-- OrdersService.changeOrderStatus: NOT_FOUND when the id is absent,
BAD_REQUEST when the stored status already equals the requested one,
otherwise a single update persisting the new status. -/
def changeOrderStatus (s : Store) (dto : ChangeOrderStatusDto) : Store × Except RpcError Order :=
  match findUnique s dto.id with
  | none =>
    (s, Except.error { statusCode := NOT_FOUND, message := orderNotFoundMsg dto.id })
  | some order =>
    if order.status == dto.status then
      (s, Except.error { statusCode := BAD_REQUEST,
                         message := alreadyHasStatusMsg dto.id dto.status })
    else
      (updateStatus s dto.id dto.status, Except.ok { order with status := dto.status })

/-- PaidOrderDto: orderId, the external charge id and the receipt url. -/
structure PaidOrderDto where
  orderId : String
  stripePaymentId : String
  receiptUrl : String
deriving DecidableEq

/-- The single update written by paidOrder: status PAID, paid true,
paidAt now, the charge id, and one nested-created OrderReceipt row. -/
def paidUpdate (now : Nat) (dto : PaidOrderDto) (o : Order) : Order :=
  { o with
    status := OrderStatus.PAID,
    paid := true,
    paidAt := some now,
    stripeChargeId := some dto.stripePaymentId,
    receipts := o.receipts ++ [{ receiptUrl := dto.receiptUrl }] }

/-- OrdersService.paidOrder: one order.update call; Prisma rejects
(unhandled here) when the id matches no row. -/
def paidOrder (now : Nat) (s : Store) (dto : PaidOrderDto) : Store × SvcResult Order :=
  match findUnique s dto.orderId with
  | none =>
    (s, SvcResult.crash ("Record to update not found: " ++ dto.orderId))
  | some order =>
    (s.map (fun o => if o.id = dto.orderId then paidUpdate now dto o else o),
     SvcResult.ok (paidUpdate now dto order))

/-- The contribution of one requested item to create's totalAmount:
catalog price times quantity (0 when the id is unmatched; the reduce
throws before ever adding that case). -/
def itemAmount (products : List Product) (item : OrderItemDto) : Int :=
  match findProduct products item.productId with
  | none => 0
  | some p => p.price * (item.quantity : Int)

/-- When every requested id has a match, the totalAmount reduce succeeds
and yields the accumulator plus the sum of price * quantity. -/
theorem totalAmountReduce_ok (products : List Product) :
    ∀ items : List OrderItemDto,
      (∀ item ∈ items, (findProduct products item.productId).isSome) →
      ∀ acc : Int,
        totalAmountReduce products acc items =
          Except.ok (acc + (items.map (itemAmount products)).sum) := by
  intro items
  induction items with
  | nil =>
    intro _ acc
    simp [totalAmountReduce]
  | cons item rest ih =>
    intro h acc
    obtain ⟨p, hp⟩ := Option.isSome_iff_exists.mp (h item (List.mem_cons_self _ _))
    simp only [totalAmountReduce, hp]
    rw [ih (fun it hit => h it (List.mem_cons_of_mem _ hit))]
    simp only [List.map_cons, List.sum_cons, itemAmount, hp, Except.ok.injEq]
    ring

/-- When some requested id has no match, the totalAmount reduce throws
the not-found Error of such an id. -/
theorem totalAmountReduce_error (products : List Product) :
    ∀ items : List OrderItemDto,
      (∃ item ∈ items, findProduct products item.productId = none) →
      ∀ acc : Int,
        ∃ pid, (∃ item ∈ items, item.productId = pid ∧ findProduct products pid = none) ∧
          totalAmountReduce products acc items = Except.error (productNotFoundMsg pid) := by
  intro items
  induction items with
  | nil =>
    rintro ⟨item, hmem, _⟩
    exact absurd hmem (List.not_mem_nil _)
  | cons item rest ih =>
    rintro ⟨bad, hmem, hbad⟩ acc
    cases hfind : findProduct products item.productId with
    | none =>
      exact ⟨item.productId, ⟨item, List.mem_cons_self _ _, rfl, hfind⟩,
        by simp [totalAmountReduce, hfind]⟩
    | some p =>
      have hbr : bad ∈ rest := by
        rcases List.mem_cons.mp hmem with h1 | h1
        · subst h1
          rw [hfind] at hbad
          cases hbad
        · exact h1
      obtain ⟨pid, ⟨it, hit, hpid, hnone⟩, heq⟩ :=
        ih ⟨bad, hbr, hbad⟩ (acc + p.price * (item.quantity : Int))
      exact ⟨pid, ⟨it, List.mem_cons_of_mem _ hit, hpid, hnone⟩,
        by simp [totalAmountReduce, hfind, heq]⟩

/-- The totalItems foldl equals the accumulator plus the sum of the
quantities. -/
theorem foldl_quantity (items : List OrderItemDto) :
    ∀ acc : Nat, items.foldl (fun a item => a + item.quantity) acc =
      acc + (items.map (fun item => item.quantity)).sum := by
  induction items with
  | nil =>
    intro acc
    simp
  | cons item rest ih =>
    intro acc
    simp [List.foldl_cons, ih]
    omega

/-- create's totalItems reduce computes the sum of the quantities. -/
theorem totalItemsReduce_eq_sum (items : List OrderItemDto) :
    totalItemsReduce items = (items.map (fun item => item.quantity)).sum := by
  simp [totalItemsReduce, foldl_quantity]

/-- When every requested id has a match, the createMany row construction
succeeds, the rows keep the requested productIds in order, and every row
productId still has a match. -/
theorem itemRows_ok (products : List Product) :
    ∀ items : List OrderItemDto,
      (∀ item ∈ items, (findProduct products item.productId).isSome) →
      ∃ rows, itemRows products items = some rows ∧
        rows.map (fun row => row.productId) = items.map (fun item => item.productId) ∧
        ∀ row ∈ rows, (findProduct products row.productId).isSome := by
  intro items
  induction items with
  | nil =>
    intro _
    exact ⟨[], rfl, rfl, by simp⟩
  | cons item rest ih =>
    intro h
    obtain ⟨p, hp⟩ := Option.isSome_iff_exists.mp (h item (List.mem_cons_self _ _))
    obtain ⟨rows, hrows, hmap, hall⟩ := ih (fun it hit => h it (List.mem_cons_of_mem _ hit))
    refine ⟨{ price := p.price, productId := item.productId, quantity := item.quantity } :: rows,
      ?_, ?_, ?_⟩
    · simp [itemRows, hp, hrows]
    · simp [hmap]
    · intro row hrow
      rcases List.mem_cons.mp hrow with h1 | h1
      · subst h1
        simp [hp]
      · exact hall row h1

/-- When every stored productId has a match, the name enrichment
succeeds and relates each stored row to a response item carrying the
stored price/quantity/productId and the catalog name. -/
theorem enrichItems_ok (products : List Product) :
    ∀ rows : List OrderItemRow,
      (∀ row ∈ rows, (findProduct products row.productId).isSome) →
      ∃ named, enrichItems products rows = some named ∧
        List.Forall₂ (fun (row : OrderItemRow) (ni : NamedOrderItem) =>
          ni.price = row.price ∧ ni.quantity = row.quantity ∧
          ni.productId = row.productId ∧
          ∃ p, findProduct products row.productId = some p ∧ ni.name = p.name)
          rows named := by
  intro rows
  induction rows with
  | nil =>
    intro _
    exact ⟨[], rfl, List.Forall₂.nil⟩
  | cons row rest ih =>
    intro h
    obtain ⟨p, hp⟩ := Option.isSome_iff_exists.mp (h row (List.mem_cons_self _ _))
    obtain ⟨named, hn, hrel⟩ := ih (fun r hr => h r (List.mem_cons_of_mem _ hr))
    refine ⟨(⟨row.price, row.productId, row.quantity, p.name⟩ : NamedOrderItem) :: named,
      ?_, List.Forall₂.cons ⟨rfl, rfl, rfl, p, hp, rfl⟩ hrel⟩
    simp [enrichItems, hp, hn]

/-- When some stored productId has no match, the name enrichment
crashes (the unguarded lookup dereferences undefined). -/
theorem enrichItems_none (products : List Product) :
    ∀ rows : List OrderItemRow,
      (∃ row ∈ rows, findProduct products row.productId = none) →
      enrichItems products rows = none := by
  intro rows
  induction rows with
  | nil =>
    rintro ⟨row, hmem, _⟩
    exact absurd hmem (List.not_mem_nil _)
  | cons row rest ih =>
    rintro ⟨bad, hmem, hbad⟩
    cases hfind : findProduct products row.productId with
    | none =>
      simp [enrichItems, hfind]
    | some p =>
      have hbr : bad ∈ rest := by
        rcases List.mem_cons.mp hmem with h1 | h1
        · subst h1
          rw [hfind] at hbad
          cases hbad
        · exact h1
      simp [enrichItems, hfind, ih ⟨bad, hbr, hbad⟩]

/-- Updating the status of the row with the given id commutes with the
unique lookup by that id. -/
theorem findUnique_updateStatus (s : Store) (id : String) (st : OrderStatus) :
    findUnique (updateStatus s id st) id =
      (findUnique s id).map (fun o => { o with status := st }) := by
  induction s with
  | nil => rfl
  | cons a l ih =>
    by_cases hid : a.id = id
    · simp [updateStatus, findUnique, List.find?_cons, hid]
    · simp only [updateStatus, List.map_cons, if_neg hid, findUnique, List.find?_cons]
      have hb : (a.id == id) = false := by
        simp [hid]
      simp only [hb]
      exact ih

/-- If findOne returns ok, the order part of the response is exactly
the stored order found by the unique lookup. -/
theorem findOne_ok_order (catalog : Catalog) (s : Store) (id : String) (order : Order)
    (resp : OrderResponse)
    (hfind : findUnique s id = some order)
    (hok : (findOne catalog s id).result = SvcResult.ok resp) :
    resp.order = order := by
  unfold findOne at hok
  simp only [hfind] at hok
  cases hcat : catalog (order.OrderItems.map (fun item => item.productId)) with
  | error msg =>
    simp only [hcat] at hok
    exact SvcResult.noConfusion hok
  | ok products =>
    simp only [hcat] at hok
    cases hn : enrichItems products order.OrderItems with
    | none =>
      simp only [hn] at hok
      exact SvcResult.noConfusion hok
    | some named =>
      simp only [hn] at hok
      have h2 : SvcResult.ok ({ order := order, OrderItems := named } : OrderResponse) =
          SvcResult.ok resp := hok
      injection h2 with h3
      rw [← h3]

/-- Claim C1: for every item list in which every productId is matched by
a product record in the catalog reply, create returns an order whose
totalAmount equals the sum over the input items of catalog price times
quantity, and whose totalItems equals the sum of the quantities. -/
theorem create_totals (catalog : Catalog) (newId : String) (s : Store) (dto : CreateOrderDto)
    (products : List Product)
    (hcat : catalog (createProductIds dto) = Except.ok products)
    (hall : ∀ item ∈ dto.items, (findProduct products item.productId).isSome) :
    ∃ resp : OrderResponse,
      (create catalog newId s dto).result = Except.ok resp ∧
      resp.order.totalAmount = (dto.items.map (itemAmount products)).sum ∧
      resp.order.totalItems = (dto.items.map (fun item => item.quantity)).sum := by
  obtain ⟨rows, hrows, hmap, hrall⟩ := itemRows_ok products dto.items hall
  obtain ⟨named, hnamed, _⟩ := enrichItems_ok products rows hrall
  have hta := totalAmountReduce_ok products dto.items hall 0
  rw [zero_add] at hta
  refine ⟨⟨newOrder newId ((dto.items.map (itemAmount products)).sum)
      (totalItemsReduce dto.items) rows, named⟩, ?_, rfl, ?_⟩
  · simp only [create, hcat, hta, hrows, hnamed]
  · simp [newOrder, totalItemsReduce_eq_sum]

/-- Witness for C1 at the spec's example: items with productIds 1 and 2
and quantities 2 and 1, catalog prices 10 and 5 (input prices 99 are
ignored), so totalAmount is 25 and totalItems is 3. -/
theorem create_totals_witness :
    ∃ resp : OrderResponse,
      (create (fun _ => Except.ok [⟨1, "A", 10⟩, ⟨2, "B", 5⟩]) "order-1" []
        { items := [⟨1, 2, 99⟩, ⟨2, 1, 99⟩] }).result = Except.ok resp ∧
      resp.order.totalAmount = 25 ∧ resp.order.totalItems = 3 := by
  obtain ⟨resp, h1, h2, h3⟩ := create_totals (fun _ => Except.ok [⟨1, "A", 10⟩, ⟨2, "B", 5⟩])
    "order-1" [] { items := [⟨1, 2, 99⟩, ⟨2, 1, 99⟩] } [⟨1, "A", 10⟩, ⟨2, "B", 5⟩]
    rfl (by decide)
  refine ⟨resp, h1, ?_, ?_⟩
  · rw [h2]
    decide
  · rw [h3]
    decide

/-- Claim C2: when the catalog call fails, or some requested productId
has no matching record in the catalog reply, create leaves the store
unchanged and fails with a BAD_REQUEST error carrying the underlying
message (the catalog failure message, or the not-found Error message of
an unmatched productId). -/
theorem create_failure (catalog : Catalog) (newId : String) (s : Store) (dto : CreateOrderDto)
    (h : (∃ msg, catalog (createProductIds dto) = Except.error msg) ∨
         (∃ products, catalog (createProductIds dto) = Except.ok products ∧
            ∃ item ∈ dto.items, findProduct products item.productId = none)) :
    (create catalog newId s dto).store = s ∧
    ∃ e : RpcError, (create catalog newId s dto).result = Except.error e ∧
      e.statusCode = BAD_REQUEST ∧
      ((∃ msg, catalog (createProductIds dto) = Except.error msg ∧ e.message = msg) ∨
       (∃ pid, (∃ item ∈ dto.items, item.productId = pid) ∧
          e.message = productNotFoundMsg pid)) := by
  rcases h with ⟨msg, hcat⟩ | ⟨products, hcat, hbad⟩
  · refine ⟨by simp [create, hcat],
      { statusCode := BAD_REQUEST, message := msg }, ?_, rfl, Or.inl ⟨msg, hcat, rfl⟩⟩
    simp [create, hcat]
  · obtain ⟨pid, ⟨it, hit, hpid, hnone⟩, herr⟩ := totalAmountReduce_error products dto.items hbad 0
    refine ⟨?_, { statusCode := BAD_REQUEST, message := productNotFoundMsg pid }, ?_, rfl,
      Or.inr ⟨pid, ⟨it, hit, hpid⟩, rfl⟩⟩
    · simp [create, hcat, herr]
    · simp [create, hcat, herr]

/-- Witness for C2: requesting productId 2 while the catalog reply only
knows product 1 leaves the empty store empty and yields BAD_REQUEST
with the not-found message for id 2. -/
theorem create_failure_witness :
    (create (fun _ => Except.ok [⟨1, "A", 10⟩]) "order-2" []
      { items := [⟨2, 1, 99⟩] }).store = ([] : Store) ∧
    ∃ e : RpcError,
      (create (fun _ => Except.ok [⟨1, "A", 10⟩]) "order-2" []
        { items := [⟨2, 1, 99⟩] }).result = Except.error e ∧
      e.statusCode = BAD_REQUEST ∧
      ((∃ msg, (fun _ => Except.ok [⟨1, "A", 10⟩] : Catalog)
          (createProductIds { items := [⟨2, 1, 99⟩] }) = Except.error msg ∧ e.message = msg) ∨
       (∃ pid, (∃ item ∈ ({ items := [⟨2, 1, 99⟩] } : CreateOrderDto).items,
          item.productId = pid) ∧ e.message = productNotFoundMsg pid)) :=
  create_failure (fun _ => Except.ok [⟨1, "A", 10⟩]) "order-2" [] { items := [⟨2, 1, 99⟩] }
    (Or.inr ⟨[⟨1, "A", 10⟩], rfl, ⟨2, 1, 99⟩, by decide, by decide⟩)

/-- A sample pending order without items, used by concrete witnesses. -/
def sampleOrder : Order :=
  { id := "o1", totalAmount := 25, totalItems := 3, status := OrderStatus.PENDING,
    paid := false, paidAt := none, stripeChargeId := none, OrderItems := [], receipts := [] }

/-- A sample pending order with one stored item row (price 10,
productId 1, quantity 2), used by concrete witnesses. -/
def sampleOrderWithItem : Order :=
  { id := "o2", totalAmount := 20, totalItems := 2, status := OrderStatus.PENDING,
    paid := false, paidAt := none, stripeChargeId := none,
    OrderItems := [{ price := 10, productId := 1, quantity := 2 }], receipts := [] }

/-- Claim C3: paidOrder on an existing order performs one store update
that sets status to PAID, paid to true, a non-null paidAt, stores the
given charge id, and creates exactly one OrderReceipt row carrying the
given receiptUrl. -/
theorem paidOrder_updates (now : Nat) (s : Store) (dto : PaidOrderDto) (order : Order)
    (h : findUnique s dto.orderId = some order) :
    ∃ u : Order,
      paidOrder now s dto =
        (s.map (fun o => if o.id = dto.orderId then paidUpdate now dto o else o),
         SvcResult.ok u) ∧
      u.status = OrderStatus.PAID ∧ u.paid = true ∧ u.paidAt = some now ∧
      u.paidAt ≠ none ∧ u.stripeChargeId = some dto.stripePaymentId ∧
      u.receipts = order.receipts ++ [{ receiptUrl := dto.receiptUrl }] := by
  refine ⟨paidUpdate now dto order, ?_, rfl, rfl, rfl, by simp [paidUpdate], rfl, rfl⟩
  simp [paidOrder, h]

/-- Witness for C3: paying the sample order at time 1700000000 with
charge ch_1 and receipt url https://r/1. -/
theorem paidOrder_updates_witness :
    ∃ u : Order,
      paidOrder 1700000000 [sampleOrder] ⟨"o1", "ch_1", "https://r/1"⟩ =
        ([sampleOrder].map (fun o =>
          if o.id = (⟨"o1", "ch_1", "https://r/1"⟩ : PaidOrderDto).orderId then
            paidUpdate 1700000000 ⟨"o1", "ch_1", "https://r/1"⟩ o else o),
         SvcResult.ok u) ∧
      u.status = OrderStatus.PAID ∧ u.paid = true ∧ u.paidAt = some 1700000000 ∧
      u.paidAt ≠ none ∧
      u.stripeChargeId = some (⟨"o1", "ch_1", "https://r/1"⟩ : PaidOrderDto).stripePaymentId ∧
      u.receipts = sampleOrder.receipts ++
        [{ receiptUrl := (⟨"o1", "ch_1", "https://r/1"⟩ : PaidOrderDto).receiptUrl }] :=
  paidOrder_updates 1700000000 [sampleOrder] ⟨"o1", "ch_1", "https://r/1"⟩ sampleOrder
    (by decide)

/-- Claim C4: findOne on an id matching no stored order fails with a
NOT_FOUND error and sends no catalog call at all. -/
theorem findOne_notFound (catalog : Catalog) (s : Store) (id : String)
    (h : findUnique s id = none) :
    findOne catalog s id =
      { result := SvcResult.rpcError { statusCode := NOT_FOUND, message := orderNotFoundMsg id },
        catalogCalls := [] } := by
  simp [findOne, h]

/-- Witness for C4: findOne for id missing on the singleton store. -/
theorem findOne_notFound_witness :
    findOne (fun _ => Except.error "down") [sampleOrder] "missing" =
      { result := SvcResult.rpcError ⟨NOT_FOUND, orderNotFoundMsg "missing"⟩,
        catalogCalls := [] } :=
  findOne_notFound (fun _ => Except.error "down") [sampleOrder] "missing" (by decide)

/-- Claim C5: changeOrderStatus on an existing order whose stored status
equals the requested status fails with BAD_REQUEST and leaves the store
(and so the stored status) unchanged. -/
theorem changeOrderStatus_same (s : Store) (dto : ChangeOrderStatusDto) (order : Order)
    (hfind : findUnique s dto.id = some order)
    (hst : order.status = dto.status) :
    changeOrderStatus s dto =
      (s, Except.error { statusCode := BAD_REQUEST,
                         message := alreadyHasStatusMsg dto.id dto.status }) := by
  simp [changeOrderStatus, hfind, hst]

/-- Witness for C5: requesting PENDING on the already-PENDING sample
order. -/
theorem changeOrderStatus_same_witness :
    changeOrderStatus [sampleOrder] ⟨"o1", OrderStatus.PENDING⟩ =
      ([sampleOrder],
       Except.error ⟨BAD_REQUEST, alreadyHasStatusMsg "o1" OrderStatus.PENDING⟩) :=
  changeOrderStatus_same [sampleOrder] ⟨"o1", OrderStatus.PENDING⟩ sampleOrder
    (by decide) (by decide)

/-- Claim C6: changeOrderStatus on an existing order with a different
requested status persists the new status, returns the updated order
with every other field unchanged, and a subsequent findOne on the same
id (whenever it returns ok) reflects the new status. -/
theorem changeOrderStatus_new (s : Store) (dto : ChangeOrderStatusDto) (order : Order)
    (hfind : findUnique s dto.id = some order)
    (hst : order.status ≠ dto.status) :
    (∃ u : Order,
      changeOrderStatus s dto = (updateStatus s dto.id dto.status, Except.ok u) ∧
      u.status = dto.status ∧ u.id = order.id ∧ u.totalAmount = order.totalAmount ∧
      u.totalItems = order.totalItems ∧ u.paid = order.paid ∧ u.paidAt = order.paidAt ∧
      u.stripeChargeId = order.stripeChargeId ∧ u.OrderItems = order.OrderItems ∧
      u.receipts = order.receipts ∧
      findUnique (updateStatus s dto.id dto.status) dto.id = some u) ∧
    ∀ (catalog : Catalog) (resp : OrderResponse),
      (findOne catalog (updateStatus s dto.id dto.status) dto.id).result = SvcResult.ok resp →
      resp.order.status = dto.status := by
  have hb : (order.status == dto.status) = false := by
    simp [hst]
  have hfu : findUnique (updateStatus s dto.id dto.status) dto.id =
      some { order with status := dto.status } := by
    rw [findUnique_updateStatus, hfind]
    rfl
  constructor
  · refine ⟨{ order with status := dto.status }, ?_, rfl, rfl, rfl, rfl, rfl, rfl, rfl, rfl,
      rfl, hfu⟩
    simp [changeOrderStatus, hfind, hb]
  · intro catalog resp hok
    have horder := findOne_ok_order catalog (updateStatus s dto.id dto.status) dto.id
      { order with status := dto.status } resp hfu hok
    rw [horder]

/-- Witness for C6: moving the sample order from PENDING to PAID. -/
theorem changeOrderStatus_new_witness :
    (∃ u : Order,
      changeOrderStatus [sampleOrder] ⟨"o1", OrderStatus.PAID⟩ =
        (updateStatus [sampleOrder] "o1" OrderStatus.PAID, Except.ok u) ∧
      u.status = OrderStatus.PAID ∧ u.id = sampleOrder.id ∧
      u.totalAmount = sampleOrder.totalAmount ∧
      u.totalItems = sampleOrder.totalItems ∧ u.paid = sampleOrder.paid ∧
      u.paidAt = sampleOrder.paidAt ∧
      u.stripeChargeId = sampleOrder.stripeChargeId ∧
      u.OrderItems = sampleOrder.OrderItems ∧
      u.receipts = sampleOrder.receipts ∧
      findUnique (updateStatus [sampleOrder] "o1" OrderStatus.PAID) "o1" = some u) ∧
    ∀ (catalog : Catalog) (resp : OrderResponse),
      (findOne catalog (updateStatus [sampleOrder] "o1" OrderStatus.PAID) "o1").result =
        SvcResult.ok resp →
      resp.order.status = OrderStatus.PAID :=
  changeOrderStatus_new [sampleOrder] ⟨"o1", OrderStatus.PAID⟩ sampleOrder
    (by decide) (by decide)

/-- Claim C7: for every status filter, page p >= 1 and page size L >= 1,
with N the number of stored orders matching the filter, findAll reports
meta.total = N, meta.page = p and meta.lastPage = ceil(N / L), and the
returned data list is the at-most-L matching records after skipping the
first (p - 1) * L matches. -/
theorem findAll_pagination (s : Store) (dto : OrderPaginationDto)
    (_hp : 1 ≤ dto.page) (_hl : 1 ≤ dto.limit) :
    (findAll s dto).meta.total = (matchingOrders s dto.status).length ∧
    (findAll s dto).meta.page = dto.page ∧
    (findAll s dto).meta.lastPage = (matchingOrders s dto.status).length ⌈/⌉ dto.limit ∧
    (findAll s dto).data.length ≤ dto.limit ∧
    (findAll s dto).data =
      ((matchingOrders s dto.status).drop ((dto.page - 1) * dto.limit)).take dto.limit := by
  refine ⟨rfl, rfl, ?_, ?_, rfl⟩
  · rw [Nat.ceilDiv_eq_add_pred_div]
    rfl
  · exact List.length_take_le _ _

/-- Witness for C7: unfiltered page 1 of size 1 over a two-order store. -/
theorem findAll_pagination_witness :
    (findAll [sampleOrder, sampleOrderWithItem] ⟨none, 1, 1⟩).meta.total =
      (matchingOrders [sampleOrder, sampleOrderWithItem] none).length ∧
    (findAll [sampleOrder, sampleOrderWithItem] ⟨none, 1, 1⟩).meta.page = 1 ∧
    (findAll [sampleOrder, sampleOrderWithItem] ⟨none, 1, 1⟩).meta.lastPage =
      (matchingOrders [sampleOrder, sampleOrderWithItem] none).length ⌈/⌉ 1 ∧
    (findAll [sampleOrder, sampleOrderWithItem] ⟨none, 1, 1⟩).data.length ≤ 1 ∧
    (findAll [sampleOrder, sampleOrderWithItem] ⟨none, 1, 1⟩).data =
      ((matchingOrders [sampleOrder, sampleOrderWithItem] none).drop ((1 - 1) * 1)).take 1 :=
  findAll_pagination [sampleOrder, sampleOrderWithItem] ⟨none, 1, 1⟩
    (by decide) (by decide)

/-- Claim C8: findOne on an existing order whose stored productIds all
have a match in the catalog reply returns the stored order, and each
returned item keeps the stored price, quantity and productId while its
name is the name of the matching record of the fresh catalog reply. -/
theorem findOne_enriched (catalog : Catalog) (s : Store) (id : String) (order : Order)
    (products : List Product)
    (hfind : findUnique s id = some order)
    (hcat : catalog (order.OrderItems.map (fun item => item.productId)) = Except.ok products)
    (hall : ∀ row ∈ order.OrderItems, (findProduct products row.productId).isSome) :
    ∃ resp : OrderResponse,
      (findOne catalog s id).result = SvcResult.ok resp ∧ resp.order = order ∧
      List.Forall₂ (fun (row : OrderItemRow) (ni : NamedOrderItem) =>
        ni.price = row.price ∧ ni.quantity = row.quantity ∧ ni.productId = row.productId ∧
        ∃ p, findProduct products row.productId = some p ∧ ni.name = p.name)
        order.OrderItems resp.OrderItems := by
  obtain ⟨named, hn, hrel⟩ := enrichItems_ok products order.OrderItems hall
  exact ⟨⟨order, named⟩, by simp [findOne, hfind, hcat, hn], rfl, hrel⟩

/-- Witness for C8: the store keeps price 10 for productId 1 while the
catalog now prices it 99 under the name FreshName; findOne returns the
stored price with the fresh name. -/
theorem findOne_enriched_witness :
    ∃ resp : OrderResponse,
      (findOne (fun _ => Except.ok [⟨1, "FreshName", 99⟩]) [sampleOrderWithItem] "o2").result =
        SvcResult.ok resp ∧
      resp.order = sampleOrderWithItem ∧
      List.Forall₂ (fun (row : OrderItemRow) (ni : NamedOrderItem) =>
        ni.price = row.price ∧ ni.quantity = row.quantity ∧ ni.productId = row.productId ∧
        ∃ p, findProduct [⟨1, "FreshName", 99⟩] row.productId = some p ∧ ni.name = p.name)
        sampleOrderWithItem.OrderItems resp.OrderItems :=
  findOne_enriched (fun _ => Except.ok [⟨1, "FreshName", 99⟩]) [sampleOrderWithItem] "o2"
    sampleOrderWithItem [⟨1, "FreshName", 99⟩] (by decide) rfl (by decide)

/-- Claim C9 counterexample: for the input with productId 1 in two
items, the id list create sends to validate_product is [1, 1] — the id
appears twice, not once, so no distinct set is sent. -/
theorem create_distinctIds_counterexample :
    (create (fun _ => Except.error "catalog unavailable") "order-9" []
      { items := [⟨1, 2, 99⟩, ⟨1, 3, 99⟩] }).catalogCalls = [[1, 1]] ∧
    ¬ ([1, 1] : List Nat).Nodup ∧ ([1, 1] : List Nat).count 1 = 2 :=
  ⟨rfl, by decide, by decide⟩

/-- Claim C9 (amended): create sends exactly one validate-products call
whose payload lists the productId of each input item in input order,
duplicates retained; in particular every referenced id is sent, but an
id referenced by two items is sent twice. -/
theorem create_sentIds (catalog : Catalog) (newId : String) (s : Store) (dto : CreateOrderDto) :
    (create catalog newId s dto).catalogCalls = [dto.items.map (fun item => item.productId)] := by
  cases h : catalog (dto.items.map (fun item => item.productId)) with
  | error msg => simp [create, createProductIds, h]
  | ok products =>
    cases h2 : totalAmountReduce products 0 dto.items with
    | error msg => simp [create, createProductIds, h, h2]
    | ok ta =>
      cases h3 : itemRows products dto.items with
      | none => simp [create, createProductIds, h, h2, h3]
      | some rows =>
        cases h4 : enrichItems products rows with
        | none => simp [create, createProductIds, h, h2, h3, h4]
        | some named => simp [create, createProductIds, h, h2, h3, h4]

/-- Claim C10: when the catalog reply to findOne lacks a record for some
stored productId of the order, the unguarded name lookup dereferences an
absent result: findOne ends in an unhandled crash, not in a structured
RpcError and not in an ok response.  (create runs the same enrichment,
but there the earlier totalAmount reduce already threw for the missing
id, and create's try/catch would turn the TypeError into BAD_REQUEST.) -/
theorem findOne_crash_missing (catalog : Catalog) (s : Store) (id : String) (order : Order)
    (products : List Product)
    (hfind : findUnique s id = some order)
    (hcat : catalog (order.OrderItems.map (fun item => item.productId)) = Except.ok products)
    (hmiss : ∃ row ∈ order.OrderItems, findProduct products row.productId = none) :
    (findOne catalog s id).result = SvcResult.crash (undefinedReadMsg "name") ∧
    (∀ e : RpcError, (findOne catalog s id).result ≠ SvcResult.rpcError e) ∧
    (∀ resp : OrderResponse, (findOne catalog s id).result ≠ SvcResult.ok resp) := by
  have hn := enrichItems_none products order.OrderItems hmiss
  have hres : (findOne catalog s id).result = SvcResult.crash (undefinedReadMsg "name") := by
    simp [findOne, hfind, hcat, hn]
  refine ⟨hres, ?_, ?_⟩
  · intro e h
    rw [hres] at h
    exact SvcResult.noConfusion h
  · intro resp h
    rw [hres] at h
    exact SvcResult.noConfusion h

/-- Witness for C10: the catalog reply is empty while the stored order
references productId 1, so findOne crashes with the TypeError message. -/
theorem findOne_crash_missing_witness :
    (findOne (fun _ => Except.ok []) [sampleOrderWithItem] "o2").result =
      SvcResult.crash (undefinedReadMsg "name") ∧
    (∀ e : RpcError,
      (findOne (fun _ => Except.ok []) [sampleOrderWithItem] "o2").result ≠
        SvcResult.rpcError e) ∧
    (∀ resp : OrderResponse,
      (findOne (fun _ => Except.ok []) [sampleOrderWithItem] "o2").result ≠
        SvcResult.ok resp) :=
  findOne_crash_missing (fun _ => Except.ok []) [sampleOrderWithItem] "o2"
    sampleOrderWithItem [] (by decide) rfl
    ⟨{ price := 10, productId := 1, quantity := 2 }, by decide, by decide⟩

end OrdersService
